import Mathlib

/-!
Verification of the prompt-construction and response-orchestration pipeline of
the AI-Travel-Planner application (src/app.py), shallowly embedded in Lean.

Strings are modelled as Lean `String` (a wrapper around `List Char`); Python
string primitives (`split`, `strip`, `replace`, `lower`, `join`, substring
containment via `in`) are re-implemented below as executable functions.
The single outbound network call to the chat-completion endpoint is modelled
by an oracle value of type `RemoteOutcome` passed as an explicit argument:
the endpoint either produces a completion text or raises, carrying a message.
-/

set_option maxRecDepth 1000000

/-! ## Generic string machinery -/

/-- Boolean test: the first list is a prefix of the second. -/
def isPrefixLC : List Char → List Char → Bool
  | [], _ => true
  | _ :: _, [] => false
  | p :: ps, c :: cs => (p == c) && isPrefixLC ps cs

/-- Boolean test: `pat` occurs as a contiguous sublist (Python `in`). -/
def occursLC (pat : List Char) : List Char → Bool
  | [] => isPrefixLC pat []
  | c :: rest => isPrefixLC pat (c :: rest) || occursLC pat rest

/-- Python substring containment `pat in s` on `String`. -/
def occursB (pat s : String) : Bool := occursLC pat.data s.data

/-- Python `s.startswith(p)` on `String`. -/
def strIsPrefix (p s : String) : Bool := isPrefixLC p.data s.data

/-- Python `s.lower()` (ASCII letters, which is all the program relies on). -/
def lowerStr (s : String) : String := String.mk (s.data.map Char.toLower)

/-- The characters stripped by Python `str.strip()` with no argument. -/
def pyWS (c : Char) : Bool :=
  c == ' ' || c == '\t' || c == '\n' || c == '\r' || c == '\x0b' || c == '\x0c'

/-- Python `str.strip()` on a character list. -/
def stripChars (l : List Char) : List Char :=
  ((l.dropWhile pyWS).reverse.dropWhile pyWS).reverse

/-- Python `s.split(',')`: the comma-separated segments, keeping empty ones. -/
def splitComma : List Char → List (List Char)
  | [] => [[]]
  | c :: rest =>
    match splitComma rest with
    | [] => [[]]
    | s :: ss => if c == ',' then [] :: s :: ss else (c :: s) :: ss

/-- Fuel-driven core of Python `str.replace` (left-to-right, non-overlapping).
The fuel is an upper bound on the number of scanning steps; each step either
consumes one character or a whole match, so `l.length` fuel always suffices. -/
def replaceListFuel (pat repl : List Char) : Nat → List Char → List Char
  | _, [] => []
  | 0, l => l
  | Nat.succ fuel, c :: rest =>
    if isPrefixLC pat (c :: rest) then
      repl ++ replaceListFuel pat repl fuel (List.drop pat.length (c :: rest))
    else
      c :: replaceListFuel pat repl fuel rest

/-- Python `s.replace(pat, repl)` on `String` (for non-empty `pat`). -/
def pyReplace (s pat repl : String) : String :=
  String.mk (replaceListFuel pat.data repl.data s.data.length s.data)

/-- Python `', '.join(l)`. -/
def commaJoin (l : List String) : String := String.intercalate ", " l

/-- Python `s or 'None'` for a string `s` (empty strings are falsy). -/
def pyOrNone (s : String) : String := if s == "" then "None" else s

/-- Python truthiness of an optional string (`None` and `""` are falsy). -/
def optTruthy : Option String → Bool
  | none => false
  | some s => !(s == "")

/-! ## Credential resolver and remote completion client (src/app.py lines 10-35) -/

/-- Python `a or b` on optional strings (`None` and `""` are falsy). -/
def pyOrOpt : Option String → Option String → Option String
  | some s, b => if s == "" then b else some s
  | none, b => b

/-- `get_hf_client` (src/app.py lines 10-18): resolves the credential from the
session value and the environment value; `None` and the placeholder sentinel
`"hf_demo_fallback"` yield no client.  A successfully constructed client is
represented by the credential it carries. -/
def get_hf_client (session_key env_key : Option String) : Option String :=
  match pyOrOpt session_key env_key with
  | none => none
  | some api_key =>
    if api_key == "" || api_key == "hf_demo_fallback" then none else some api_key

/-- Outcome of the single outbound network call, supplied as an oracle: the
remote endpoint either returns a completion text or raises with a message. -/
inductive RemoteOutcome where
  | success (text : String)
  | failure (msg : String)

/-- The string returned by `hf_chat_completion` when no client is available
(src/app.py line 24). -/
def noCredentialMsg : String :=
  "Error: HuggingFace API key not provided or invalid. Please set your API key in the sidebar."

/-- The string returned by `hf_chat_completion` when the remote call raises
(src/app.py line 35): the underlying exception text is appended. -/
def remoteFailMsg (msg : String) : String :=
  "Error: All HuggingFace models unavailable. " ++ msg

/-- `hf_chat_completion` (src/app.py lines 21-35).  The missing-credential
check happens before the network call: in that branch the `remote` oracle is
never consulted. -/
def hf_chat_completion (session_key env_key : Option String)
    (remote : RemoteOutcome) : String :=
  match get_hf_client session_key env_key with
  | none => noCredentialMsg
  | some _ =>
    match remote with
    | RemoteOutcome.success text => text
    | RemoteOutcome.failure msg => remoteFailMsg msg

/-- The ad hoc response object `type("Response", (), {"content": ...})()`
returned by both agent classes: a record with a single string field. -/
structure Response where
  content : String

/-- `HFChatAgent.run` (src/app.py lines 45-54): forwards to
`hf_chat_completion` and wraps the resulting text; its own try/except means it
always returns a `Response`, never raises. -/
def hfAgentRun (session_key env_key : Option String) (remote : RemoteOutcome)
    (_prompt : String) : Response :=
  { content := hf_chat_completion session_key env_key remote }

/-! ## Offline fallback agent (src/app.py lines 57-168) -/

/-- `OfflineAgent._generate_research_template` (src/app.py lines 75-105). -/
def research_template : String :=
  "\n        🔍 **Research Template** (Offline Mode)\n        \n        **Note**: This is a basic template. For detailed, AI-powered research, please provide a valid HuggingFace API key.\n        \n        **Top Attractions**:\n        - Visit major landmarks and tourist attractions\n        - Explore local museums and cultural sites\n        - Experience natural attractions and parks\n        \n        **Accommodations**:\n        - Research hotels in central locations\n        - Consider vacation rentals for longer stays\n        - Check reviews and amenities\n        \n        **Dining**:\n        - Try local specialties and traditional cuisine\n        - Visit highly-rated restaurants\n        - Explore local markets and street food\n        \n        **Transportation**:\n        - Research public transportation options\n        - Consider ride-sharing or car rentals\n        - Plan airport transfers\n        \n        **Tips**:\n        - Check visa requirements\n        - Research local customs and etiquette\n        - Download offline maps and translation apps\n        "

/-- `OfflineAgent._generate_itinerary_template` (src/app.py lines 107-139). -/
def itinerary_template : String :=
  "\n        📅 **Itinerary Template** (Offline Mode)\n        \n        **Note**: This is a basic template. For personalized, AI-powered itineraries, please provide a valid HuggingFace API key.\n        \n        **Day 1**: Arrival & City Overview\n        - Morning: Arrive and check-in to accommodation\n        - Afternoon: Explore city center and main attractions\n        - Evening: Welcome dinner at local restaurant\n        \n        **Day 2**: Cultural Exploration\n        - Morning: Visit museums and historical sites\n        - Afternoon: Guided city tour or walking tour\n        - Evening: Local entertainment or cultural show\n        \n        **Day 3**: Nature & Adventure\n        - Morning: Visit parks or natural attractions\n        - Afternoon: Outdoor activities based on location\n        - Evening: Sunset viewing and dinner\n        \n        **Additional Days**: \n        - Continue exploring based on your interests\n        - Mix of relaxation and adventure activities\n        - Shopping and souvenir hunting\n        - Day trips to nearby attractions\n        \n        **General Tips**:\n        - Book popular attractions in advance\n        - Allow flexibility for weather changes\n        - Keep emergency contacts handy\n        - Stay hydrated and take breaks\n        "

/-- `OfflineAgent._generate_tips_template` (src/app.py lines 141-168). -/
def tips_template : String :=
  "\n        💡 **Travel Tips Template** (Offline Mode)\n        \n        **Essential Preparations**:\n        - Check passport expiration dates\n        - Research visa requirements\n        - Get travel insurance\n        - Notify banks of travel dates\n        \n        **Packing Tips**:\n        - Check weather forecasts\n        - Pack versatile clothing\n        - Bring necessary medications\n        - Don\x27t forget chargers and adapters\n        \n        **Safety & Health**:\n        - Research local emergency numbers\n        - Keep copies of important documents\n        - Stay aware of your surroundings\n        - Follow local health guidelines\n        \n        **Money Matters**:\n        - Research local currency and exchange rates\n        - Have multiple payment methods\n        - Keep some cash for small purchases\n        - Understand tipping customs\n        "

/-- `OfflineAgent.run` (src/app.py lines 64-73): classifies the prompt by
substring match on its lowercased text, checking "research" first, then
"itinerary", else the generic tips template. -/
def offlineRun (prompt : String) : String :=
  if occursB "research" (lowerStr prompt) then research_template
  else if occursB "itinerary" (lowerStr prompt) then itinerary_template
  else tips_template

/-- `OfflineAgent.run` wrapped as the returned response object. -/
def offlineAgentRun (prompt : String) : Response := { content := offlineRun prompt }

/-! ## Destination parsing (src/app.py lines 281-289) -/

/-- `destinations = [dest.strip() for dest in destination.split(',') if dest.strip()]`
(src/app.py line 283). -/
def parseDestinations (s : String) : List String :=
  (splitComma s.data).filterMap fun dest =>
    let t := stripChars dest
    if t.isEmpty then none else some (String.mk t)

/-! ## Download filename (src/app.py lines 641-648) -/

/-- The export filename: underscore-join of the first three destination names
(each with `", "` and `" "` replaced by `"_"`), a `_plus{N}more` suffix when
there are more than three, then `_{num_days}days_itinerary.txt`. -/
def mkFilename (destinations : List String) (num_days : Nat) : String :=
  let filename_destinations := String.intercalate "_"
    ((destinations.take 3).map fun dest => pyReplace (pyReplace dest ", " "_") " " "_")
  let filename_destinations :=
    if destinations.length > 3 then
      filename_destinations ++ "_plus" ++ Nat.repr (destinations.length - 3) ++ "more"
    else filename_destinations
  filename_destinations ++ "_" ++ Nat.repr num_days ++ "days_itinerary.txt"

/-! ## Prompt builders (src/app.py lines 335-486)

The f-strings are transcribed verbatim, blank template lines carrying their
eight trailing spaces exactly as in the source.  The local Python variables
`destinations_list = ', '.join(destinations)` and
`days_per_destination = num_days // len(destinations)` are inlined at their
use sites.  `destinations[0]` is modelled as `destinations.headD ""` (the
branch is guarded by `len(destinations) == 1`).  Note: with an empty
destination list Python would raise `ZeroDivisionError` in the multi branch,
but that branch is unreachable in the app (the UI guard at line 487 requires
a non-empty list); `Nat` division by zero makes the Lean model total there. -/

/-- Single-destination branch of `create_multi_destination_research_prompt`
(src/app.py lines 338-359). -/
def single_destination_research_prompt (destinations : List String) (num_days : Nat)
    (travel_style : String) (travelers : Nat) (budget_range : String)
    (interests accommodation_type : List String) (mobility special_requirements : String) :
    String :=
  "\n        Research " ++ destinations.headD "" ++ " for a " ++ Nat.repr num_days ++ "-day " ++ lowerStr travel_style ++ " trip for " ++ Nat.repr travelers ++ " travelers.\n        Budget: " ++ budget_range ++ "\n        Interests: " ++ commaJoin interests ++ "\n        Accommodation preferences: " ++ commaJoin accommodation_type ++ "\n        Transportation: " ++ mobility ++ "\n        Special requirements: " ++ pyOrNone special_requirements ++ "\n        \n        Provide comprehensive information about:\n        1. Top attractions and activities with current status and pricing\n        2. Recommended accommodations with availability and rates\n        3. Local dining options with recent reviews\n        4. Transportation methods and current schedules/costs\n        5. Cultural tips and local customs\n        6. Weather considerations for travel dates\n        7. Current budget estimates and cost breakdowns\n        8. Best neighborhoods to stay in\n        9. Day trip opportunities from the city\n        10. Shopping and entertainment options\n        "

/-- Multi-destination branch of `create_multi_destination_research_prompt`
(src/app.py lines 360-401). -/
def multi_destination_research_prompt (destinations : List String) (num_days : Nat)
    (travel_style : String) (travelers : Nat) (budget_range : String)
    (interests accommodation_type : List String) (mobility special_requirements : String) :
    String :=
  "\n        Research a " ++ Nat.repr num_days ++ "-day multi-destination " ++ lowerStr travel_style ++ " trip covering: " ++ commaJoin destinations ++ "\n        For " ++ Nat.repr travelers ++ " travelers with " ++ budget_range ++ " budget.\n        Interests: " ++ commaJoin interests ++ "\n        Accommodation preferences: " ++ commaJoin accommodation_type ++ "\n        Transportation: " ++ mobility ++ "\n        Special requirements: " ++ pyOrNone special_requirements ++ "\n        \n        MULTI-DESTINATION RESEARCH REQUIREMENTS:\n        \n        FOR EACH DESTINATION (" ++ commaJoin destinations ++ "):\n        1. **Key Attractions & Activities** (prioritize based on " ++ commaJoin interests ++ ")\n        2. **Recommended Stay Duration** (suggest optimal days " ++ "out of " ++ Nat.repr (num_days / destinations.length) ++ " average per destination" ++ ")\n        3. **Best Accommodations** (" ++ commaJoin accommodation_type ++ ") with location recommendations\n        4. **Must-try Local Dining** and signature dishes\n        5. **Transportation within the city** (" ++ mobility ++ " preferences)\n        \n        INTER-CITY LOGISTICS:\n        1. **Transportation between destinations** (flights, trains, buses, cars)\n        2. **Travel time and costs** between each destination\n        3. **Optimal route planning** (most efficient order to visit)\n        4. **Luggage considerations** for multi-city travel\n        \n        BUDGET BREAKDOWN:\n        1. **Per-destination costs** (accommodation, food, activities)\n        2. **Transportation costs** between cities\n        3. **Total estimated budget** for the entire trip\n        \n        PRACTICAL MULTI-CITY TIPS:\n        1. **Packing strategies** for multiple destinations\n        2. **Weather variations** across different cities/regions\n        3. **Cultural differences** and customs for each destination\n        4. **Best booking strategies** for multi-city accommodations\n        5. **Time zone considerations** if applicable\n        \n        Please structure the response clearly for each destination and provide a comparative analysis.\n        "

/-- `create_multi_destination_research_prompt` (src/app.py lines 335-401). -/
def create_multi_destination_research_prompt (destinations : List String) (num_days : Nat)
    (travel_style : String) (travelers : Nat) (budget_range : String)
    (interests accommodation_type : List String) (mobility special_requirements : String) :
    String :=
  if destinations.length = 1 then
    single_destination_research_prompt destinations num_days travel_style travelers
      budget_range interests accommodation_type mobility special_requirements
  else
    multi_destination_research_prompt destinations num_days travel_style travelers
      budget_range interests accommodation_type mobility special_requirements

/-- Single-destination `context` of `create_multi_destination_itinerary_prompt`
(src/app.py lines 406-418). -/
def single_destination_itinerary_context (destinations : List String) (num_days : Nat)
    (start_date end_date : String) (travelers : Nat) (travel_style budget_range : String)
    (interests accommodation_type : List String) (mobility special_requirements : String) :
    String :=
  "\n        Create a detailed " ++ Nat.repr num_days ++ "-day itinerary for " ++ destinations.headD "" ++ ":\n        Duration: " ++ Nat.repr num_days ++ " days (from " ++ start_date ++ " to " ++ end_date ++ ")\n        Travelers: " ++ Nat.repr travelers ++ " people\n        Travel Style: " ++ travel_style ++ "\n        Budget: " ++ budget_range ++ "\n        Interests: " ++ commaJoin interests ++ "\n        Accommodations: " ++ commaJoin accommodation_type ++ "\n        Transportation: " ++ mobility ++ "\n        Special Requirements: " ++ pyOrNone special_requirements ++ "\n        "

/-- Multi-destination `context` of `create_multi_destination_itinerary_prompt`
(src/app.py lines 419-481).  The source also computes `days_per_destination`
here (line 422) but never interpolates it into this template. -/
def multi_destination_itinerary_context (destinations : List String) (num_days : Nat)
    (start_date end_date : String) (travelers : Nat) (travel_style budget_range : String)
    (interests accommodation_type : List String) (mobility special_requirements : String) :
    String :=
  "\n        Create a detailed " ++ Nat.repr num_days ++ "-day MULTI-DESTINATION itinerary covering: " ++ commaJoin destinations ++ "\n        Duration: " ++ Nat.repr num_days ++ " days total (from " ++ start_date ++ " to " ++ end_date ++ ")\n        Travelers: " ++ Nat.repr travelers ++ " people\n        Travel Style: " ++ travel_style ++ "\n        Budget: " ++ budget_range ++ "\n        Interests: " ++ commaJoin interests ++ "\n        Accommodations: " ++ commaJoin accommodation_type ++ "\n        Transportation: " ++ mobility ++ "\n        Special Requirements: " ++ pyOrNone special_requirements ++ "\n        \n        MULTI-DESTINATION ITINERARY REQUIREMENTS:\n        \n        1. **OPTIMAL ROUTE PLANNING**:\n           - Determine the best order to visit destinations\n           - Consider geographical proximity and transportation efficiency\n           - Factor in arrival/departure logistics\n        \n        2. **TIME ALLOCATION**:\n           - Distribute " ++ Nat.repr num_days ++ " days across " ++ Nat.repr destinations.length ++ " destinations\n           - Suggest ideal duration for each destination based on attractions\n           - Account for travel days between destinations\n        \n        3. **DAY-BY-DAY BREAKDOWN**:\n           For each day, specify:\n           - **Location**: Which destination you\x27re in\n           - **Morning**: Specific activities with timing\n           - **Afternoon**: Attractions/experiences with travel time\n           - **Evening**: Dining and entertainment recommendations\n           - **Travel days**: Detailed transportation between cities\n        \n        4. **TRANSITION PLANNING**:\n           - **Check-out/Check-in logistics**\n           - **Transportation booking details** (flights, trains, etc.)\n           - **Luggage handling** during city transitions\n           - **Buffer time** for unexpected delays\n        \n        5. **DESTINATION-SPECIFIC HIGHLIGHTS**:\n           For each destination, prioritize:\n           - Must-see attractions based on " ++ commaJoin interests ++ "\n           - Local experiences unique to that location\n           - Best dining spots for authentic cuisine\n           - Cultural activities and local customs\n        \n        6. **PRACTICAL CONSIDERATIONS**:\n           - **Weather-appropriate activities** for travel dates\n           - **Booking priorities** (what to reserve in advance)\n           - **Emergency contacts** for each destination\n           - **Communication tips** (language, currency, customs)\n        \n        Please structure as:\n        - **Overview & Route Summary**\n        - **Day 1-X: [Destination 1]**\n        - **Day X: Travel Day (Destination 1 → Destination 2)**\n        - **Day X-Y: [Destination 2]**\n        - **Continue for all destinations...**\n        - **Final Tips & Recommendations**\n        "

/-- `create_multi_destination_itinerary_prompt` (src/app.py lines 403-486):
selects the single or multi `context`, then, when `research_results` is
truthy, appends its full text verbatim under the labeled section. -/
def create_multi_destination_itinerary_prompt (destinations : List String) (num_days : Nat)
    (start_date end_date : String) (travelers : Nat) (travel_style budget_range : String)
    (interests accommodation_type : List String) (mobility special_requirements : String)
    (research_results : Option String) : String :=
  let context :=
    if destinations.length = 1 then
      single_destination_itinerary_context destinations num_days start_date end_date
        travelers travel_style budget_range interests accommodation_type mobility
        special_requirements
    else
      multi_destination_itinerary_context destinations num_days start_date end_date
        travelers travel_style budget_range interests accommodation_type mobility
        special_requirements
  if optTruthy research_results then
    context ++ "\n\nRESEARCH INFORMATION TO INCORPORATE:\n" ++ research_results.getD ""
  else context

/-! ## Session state and button handlers (src/app.py lines 178-180, 328-332, 487-608) -/

/-- The session fields the pipeline reads and writes: the credential override
`st.session_state.hf_api_key` (`""` when unset), and the most recent research
and itinerary texts (`none` until first written). -/
structure SessionState where
  hf_api_key : String
  research_results : Option String
  itinerary : Option String

/-- The `research_btn` handler (src/app.py lines 578-591): builds the research
prompt, runs the researcher agent (offline when the session key is falsy,
remote-backed otherwise, per lines 489-495), and stores the response content
into `st.session_state.research_results`.  Since both agents catch their own
exceptions and return a `Response`, the `except` branch of the handler is
unreachable and the assignment always executes. -/
def research_btn_handler (st : SessionState) (env_key : Option String)
    (remote : RemoteOutcome) (destinations : List String) (num_days : Nat)
    (travel_style : String) (travelers : Nat) (budget_range : String)
    (interests accommodation_type : List String) (mobility special_requirements : String) :
    SessionState :=
  let research_prompt := create_multi_destination_research_prompt destinations num_days
    travel_style travelers budget_range interests accommodation_type mobility
    special_requirements
  let content :=
    if st.hf_api_key == "" then offlineRun research_prompt
    else hf_chat_completion (some st.hf_api_key) env_key remote
  { st with research_results := some content }

/-- The `generate_btn` handler (src/app.py lines 594-608): builds the itinerary
prompt from the stored research results, runs the planner agent, and stores the
response content into `st.session_state.itinerary`. -/
def generate_btn_handler (st : SessionState) (env_key : Option String)
    (remote : RemoteOutcome) (destinations : List String) (num_days : Nat)
    (start_date end_date : String) (travelers : Nat) (travel_style budget_range : String)
    (interests accommodation_type : List String) (mobility special_requirements : String) :
    SessionState :=
  let context := create_multi_destination_itinerary_prompt destinations num_days
    start_date end_date travelers travel_style budget_range interests accommodation_type
    mobility special_requirements st.research_results
  let content :=
    if st.hf_api_key == "" then offlineRun context
    else hf_chat_completion (some st.hf_api_key) env_key remote
  { st with itinerary := some content }


/-! ## Lemmas about the string machinery -/

theorem isPrefixLC_self_append (p r : List Char) : isPrefixLC p (p ++ r) = true := by
  induction p with
  | nil => rfl
  | cons a as ih => simp [isPrefixLC, ih]

theorem isPrefixLC_self (p : List Char) : isPrefixLC p p = true := by
  simpa using isPrefixLC_self_append p []

theorem isPrefixLC_append_ext (p a b : List Char) (h : isPrefixLC p a = true) :
    isPrefixLC p (a ++ b) = true := by
  induction p generalizing a with
  | nil => rfl
  | cons x xs ih =>
    cases a with
    | nil => simp [isPrefixLC] at h
    | cons c cs =>
      simp [isPrefixLC] at h ⊢
      exact ⟨h.1, ih cs h.2⟩

theorem occursLC_nil_pat (l : List Char) : occursLC [] l = true := by
  induction l with
  | nil => rfl
  | cons c cs ih => simp [occursLC, isPrefixLC]

theorem occursLC_of_isPrefixLC (p l : List Char) (h : isPrefixLC p l = true) :
    occursLC p l = true := by
  cases l with
  | nil =>
    cases p with
    | nil => rfl
    | cons x xs => simp [isPrefixLC] at h
  | cons c cs => simp [occursLC, h]

theorem occursLC_append_right (p a b : List Char) (h : occursLC p b = true) :
    occursLC p (a ++ b) = true := by
  induction a with
  | nil => simpa using h
  | cons c cs ih => simp [occursLC]; right; exact ih

theorem occursLC_append_left (p a b : List Char) (h : occursLC p a = true) :
    occursLC p (a ++ b) = true := by
  induction a with
  | nil =>
    cases p with
    | nil => exact occursLC_nil_pat b
    | cons x xs => simp [occursLC, isPrefixLC] at h
  | cons c cs ih =>
    simp [occursLC] at h ⊢
    cases h with
    | inl h => left; exact isPrefixLC_append_ext _ _ _ h
    | inr h => right; exact ih h

theorem occursLC_self (p : List Char) : occursLC p p = true :=
  occursLC_of_isPrefixLC p p (isPrefixLC_self p)

theorem occursB_append_right (p a b : String) (h : occursB p b = true) :
    occursB p (a ++ b) = true := by
  unfold occursB
  rw [String.data_append]
  exact occursLC_append_right _ _ _ h

theorem occursB_append_left (p a b : String) (h : occursB p a = true) :
    occursB p (a ++ b) = true := by
  unfold occursB
  rw [String.data_append]
  exact occursLC_append_left _ _ _ h

theorem occursB_self_append (p r : String) : occursB p (p ++ r) = true := by
  unfold occursB
  rw [String.data_append]
  exact occursLC_of_isPrefixLC _ _ (isPrefixLC_self_append _ _)

theorem occursB_refl (p : String) : occursB p p = true := occursLC_self p.data

/-- Occurrence of a three-piece pattern laid out contiguously inside a larger
right-associated concatenation. -/
theorem occursB_three_append (a b c r : String) :
    occursB (a ++ (b ++ c)) (a ++ (b ++ (c ++ r))) = true := by
  have h : a.data ++ (b.data ++ (c.data ++ r.data))
      = (a.data ++ (b.data ++ c.data)) ++ r.data := by
    simp [List.append_assoc]
  unfold occursB
  rw [String.data_append, String.data_append, String.data_append,
    String.data_append, String.data_append, h]
  exact occursLC_of_isPrefixLC _ _ (isPrefixLC_self_append _ _)

theorem lowerStr_append (a b : String) : lowerStr (a ++ b) = lowerStr a ++ lowerStr b := by
  cases a with
  | mk xa =>
    cases b with
    | mk xb =>
      show String.mk ((xa ++ xb).map Char.toLower)
          = String.mk (xa.map Char.toLower) ++ String.mk (xb.map Char.toLower)
      apply congrArg String.mk
      simp [List.map_append]

/-! ## Auxiliary lemmas about parsing and replacement -/

theorem filterMap_strip_eq (l : List (List Char)) :
    (l.filterMap fun dest =>
      let t := stripChars dest
      if t.isEmpty then none else some (String.mk t))
    = ((l.map stripChars).filter fun t => !t.isEmpty).map String.mk := by
  induction l with
  | nil => rfl
  | cons d ds ih =>
    by_cases h : stripChars d = []
    · simp [List.filterMap_cons, List.filter_cons, h]
      simpa using ih
    · simp [List.filterMap_cons, List.filter_cons, h]
      simpa using ih

theorem splitComma_cons (c : Char) (rest : List Char) :
    splitComma (c :: rest) = match splitComma rest with
      | [] => [[]]
      | s :: ss => if c == ',' then [] :: s :: ss else (c :: s) :: ss := rfl

theorem splitComma_ne_nil (l : List Char) : splitComma l ≠ [] := by
  cases l with
  | nil => simp [splitComma]
  | cons c rest =>
    rw [splitComma_cons]
    rcases splitComma rest with _ | ⟨s, ss⟩
    · simp
    · by_cases hc : c == ','
      · simp [hc]
      · simp [hc]

theorem mem_splitComma_no_comma (l : List Char) (seg : List Char)
    (h : seg ∈ splitComma l) : ',' ∉ seg := by
  induction l generalizing seg with
  | nil =>
    simp [splitComma] at h
    subst h
    simp
  | cons c rest ih =>
    rcases hsp : splitComma rest with _ | ⟨s, ss⟩
    · exact absurd hsp (splitComma_ne_nil rest)
    · have hsc : splitComma (c :: rest)
          = if c == ',' then [] :: s :: ss else (c :: s) :: ss := by
        rw [splitComma_cons, hsp]
      rw [hsc] at h
      by_cases hc : c == ','
      · rw [if_pos hc] at h
        rw [List.mem_cons] at h
        rcases h with h | h
        · subst h; simp
        · exact ih seg (hsp ▸ h)
      · rw [if_neg hc] at h
        rw [List.mem_cons] at h
        rcases h with h | h
        · subst h
          intro hmem
          rw [List.mem_cons] at hmem
          rcases hmem with hmem | hmem
          · simp at hc
            exact hc hmem.symm
          · exact ih s (hsp ▸ List.mem_cons_self s ss) hmem
        · exact ih seg (hsp ▸ List.mem_cons_of_mem s h)

theorem mem_of_mem_dropWhile (p : Char → Bool) (a : Char) (l : List Char)
    (h : a ∈ l.dropWhile p) : a ∈ l := by
  induction l with
  | nil => simp at h
  | cons c cs ih =>
    by_cases hp : p c
    · rw [List.dropWhile_cons_of_pos hp] at h
      exact List.mem_cons_of_mem _ (ih h)
    · rwa [List.dropWhile_cons_of_neg hp] at h

theorem mem_stripChars (a : Char) (l : List Char) (h : a ∈ stripChars l) : a ∈ l := by
  unfold stripChars at h
  rw [List.mem_reverse] at h
  have h1 := mem_of_mem_dropWhile _ _ _ h
  rw [List.mem_reverse] at h1
  exact mem_of_mem_dropWhile _ _ _ h1

theorem parse_no_comma (raw : String) (d : String) (hd : d ∈ parseDestinations raw) :
    ',' ∉ d.data := by
  unfold parseDestinations at hd
  rcases List.mem_filterMap.mp hd with ⟨seg, hseg, heq⟩
  by_cases h : (stripChars seg).isEmpty
  · simp [h] at heq
  · simp [h] at heq
    intro hmem
    rw [← heq] at hmem
    exact mem_splitComma_no_comma raw.data seg hseg (mem_stripChars _ _ hmem)

theorem mem_replaceListFuel (pat repl : List Char) (f : Nat) (l : List Char) (a : Char)
    (h : a ∈ replaceListFuel pat repl f l) : a ∈ repl ∨ a ∈ l := by
  induction f generalizing l with
  | zero =>
    cases l with
    | nil => simp [replaceListFuel] at h
    | cons c cs => exact Or.inr h
  | succ fuel ih =>
    cases l with
    | nil => simp [replaceListFuel] at h
    | cons c cs =>
      unfold replaceListFuel at h
      by_cases hp : isPrefixLC pat (c :: cs) = true
      · rw [if_pos hp] at h
        rw [List.mem_append] at h
        rcases h with h | h
        · exact Or.inl h
        · rcases ih _ h with h2 | h2
          · exact Or.inl h2
          · exact Or.inr (List.drop_subset _ _ h2)
      · rw [if_neg hp] at h
        rw [List.mem_cons] at h
        rcases h with h | h
        · exact Or.inr (h ▸ List.mem_cons_self c cs)
        · rcases ih _ h with h2 | h2
          · exact Or.inl h2
          · exact Or.inr (List.mem_cons_of_mem _ h2)

theorem no_space_replaceListFuel (f : Nat) (l : List Char) (hf : l.length ≤ f) :
    ' ' ∉ replaceListFuel [' '] ['_'] f l := by
  induction f generalizing l with
  | zero =>
    cases l with
    | nil => simp [replaceListFuel]
    | cons c cs => simp at hf
  | succ fuel ih =>
    cases l with
    | nil => simp [replaceListFuel]
    | cons c cs =>
      unfold replaceListFuel
      by_cases hc : c = ' '
      · subst hc
        rw [if_pos (by simp [isPrefixLC])]
        intro hmem
        rw [List.mem_append] at hmem
        rcases hmem with hmem | hmem
        · simp at hmem
        · simp only [List.length_cons] at hf
          exact ih (List.drop 1 (' ' :: cs)) (by simp; omega) hmem
      · rw [if_neg (by simp [isPrefixLC]; intro h; exact absurd h.symm hc)]
        intro hmem
        rw [List.mem_cons] at hmem
        rcases hmem with hmem | hmem
        · exact hc hmem.symm
        · simp only [List.length_cons] at hf
          exact ih cs (by omega) hmem

theorem clean_dest_no_space_comma (d : String) (hc : ',' ∉ d.data) :
    ' ' ∉ (pyReplace (pyReplace d ", " "_") " " "_").data
  ∧ ',' ∉ (pyReplace (pyReplace d ", " "_") " " "_").data := by
  constructor
  · exact no_space_replaceListFuel _ _ (le_refl _)
  · intro hmem
    rcases mem_replaceListFuel _ _ _ _ _ hmem with h1 | h1
    · simp at h1
    · rcases mem_replaceListFuel _ _ _ _ _ h1 with h2 | h2
      · simp at h2
      · exact hc h2

/-! ## Claim theorems -/

/-- C2 counterexample: the raw input "Paris, Paris" parses to a list in which
the destination "Paris" appears twice, so duplicates are NOT discarded and the
parsed list is not duplicate-free, contrary to the claim. -/
theorem c2_counterexample :
    parseDestinations "Paris, Paris" = ["Paris", "Paris"]
  ∧ ¬ (parseDestinations "Paris, Paris").Nodup := by
  refine ⟨by decide, by decide⟩

/-- C2 (amended): the parsed destination list is exactly the comma-split
segments, each stripped of surrounding whitespace, with empty segments
discarded; duplicates are retained.  Every parsed destination is non-empty. -/
theorem c2_parse_destinations (s : String) :
    parseDestinations s
      = (((splitComma s.data).map stripChars).filter fun t => !t.isEmpty).map String.mk
  ∧ ∀ d ∈ parseDestinations s, d ≠ "" := by
  refine ⟨filterMap_strip_eq (splitComma s.data), ?_⟩
  intro d hd
  unfold parseDestinations at hd
  rw [filterMap_strip_eq] at hd
  rcases List.mem_map.mp hd with ⟨t, ht, hmk⟩
  have hne := (List.mem_filter.mp ht).2
  intro hcon
  rw [← hmk] at hcon
  have ht0 : t = [] := congrArg String.data hcon
  rw [ht0] at hne
  simp at hne

/-- C2 witness: concrete instantiation of the amended parsing theorem. -/
theorem c2_witness :
    ("Paris" ∈ parseDestinations "Paris, Rome") ∧ ("Paris" : String) ≠ "" :=
  ⟨by decide, (c2_parse_destinations "Paris, Rome").2 "Paris" (by decide)⟩

/-- C3: the credential resolver prefers a truthy session value over the
environment value; with the session value unset (missing or empty) it falls
back to the environment value; when both are unset, or the resolved value is
the placeholder sentinel "hf_demo_fallback", it resolves to nothing. -/
theorem c3_credential_resolver (sess env : Option String) :
    (∀ s, sess = some s → s ≠ "" → s ≠ "hf_demo_fallback" →
        get_hf_client sess env = some s)
  ∧ ((sess = none ∨ sess = some "") → ∀ e, env = some e → e ≠ "" →
        e ≠ "hf_demo_fallback" → get_hf_client sess env = some e)
  ∧ ((sess = none ∨ sess = some "") → (env = none ∨ env = some "") →
        get_hf_client sess env = none)
  ∧ (∀ k, pyOrOpt sess env = some k → k = "hf_demo_fallback" →
        get_hf_client sess env = none) := by
  refine ⟨?_, ?_, ?_, ?_⟩
  · intro s hs h1 h2
    subst hs
    simp [get_hf_client, pyOrOpt, h1, h2]
  · intro hsess e he h1 h2
    subst he
    rcases hsess with h | h <;> subst h <;> simp [get_hf_client, pyOrOpt, h1, h2]
  · intro hsess henv
    rcases hsess with h | h <;> rcases henv with h2 | h2 <;> subst h <;> subst h2 <;>
      simp [get_hf_client, pyOrOpt]
  · intro k hk h2
    subst h2
    simp [get_hf_client, hk]

/-- C3 witness: a user-entered session key wins over the environment key;
and the sentinel value resolves to nothing. -/
theorem c3_witness :
    get_hf_client (some "user_key") (some "env_key") = some "user_key"
  ∧ get_hf_client (some "hf_demo_fallback") (some "env_key") = none :=
  ⟨(c3_credential_resolver (some "user_key") (some "env_key")).1 "user_key" rfl
      (by decide) (by decide),
   (c3_credential_resolver (some "hf_demo_fallback") (some "env_key")).2.2.2
      "hf_demo_fallback" (by decide) rfl⟩

/-- C4: when the resolver yields no usable credential, `hf_chat_completion`
returns the no-credential error result, and the result is independent of the
remote oracle — the missing credential is detected before any network call. -/
theorem c4_no_credential_no_network (sk ek : Option String) (r r2 : RemoteOutcome)
    (h : get_hf_client sk ek = none) :
    hf_chat_completion sk ek r = noCredentialMsg
  ∧ hf_chat_completion sk ek r = hf_chat_completion sk ek r2 := by
  constructor <;> simp [hf_chat_completion, h]

/-- C4 witness: with neither a session key nor an environment key, a failing
remote endpoint is never consulted and the no-credential result is returned. -/
theorem c4_witness :
    hf_chat_completion none none (RemoteOutcome.failure "boom") = noCredentialMsg :=
  (c4_no_credential_no_network none none (RemoteOutcome.failure "boom")
    (RemoteOutcome.success "x") rfl).1

/-- C10: both completion client run methods are total Lean functions returning
a `Response` whose `content` field is a plain string; every failure path of the
remote-backed client yields a string beginning with "Error:" in that same
field (so success and failure share one type and are distinguished only by the
text), while the offline client's output never begins with "Error:". -/
theorem c10_clients_total (sk ek : Option String) (m : String) (r : RemoteOutcome)
    (p : String) :
    (hfAgentRun sk ek r p).content = hf_chat_completion sk ek r
  ∧ (offlineAgentRun p).content = offlineRun p
  ∧ strIsPrefix "Error:" (hf_chat_completion sk ek (RemoteOutcome.failure m)) = true
  ∧ (get_hf_client sk ek = none → strIsPrefix "Error:" (hf_chat_completion sk ek r) = true)
  ∧ strIsPrefix "Error:" (offlineRun p) = false := by
  refine ⟨rfl, rfl, ?_, ?_, ?_⟩
  · rcases hget : get_hf_client sk ek with _ | k
    · simp [hf_chat_completion, hget]
      decide
    · simp [hf_chat_completion, hget, remoteFailMsg]
      unfold strIsPrefix
      rw [String.data_append]
      exact isPrefixLC_append_ext _ _ _ (by decide)
  · intro h
    simp [hf_chat_completion, h]
    decide
  · unfold offlineRun
    split
    · decide
    · split
      · decide
      · decide

/-- C10 witness: concrete instantiation discharging the no-credential clause. -/
theorem c10_witness :
    strIsPrefix "Error:" (hf_chat_completion none none (RemoteOutcome.success "hi")) = true :=
  (c10_clients_total none none "m" (RemoteOutcome.success "hi") "p").2.2.2.1 rfl

/-- C7: the offline completion client is total and never produces a failure
result: its output always carries the "Offline Mode" marker and never begins
with "Error:"; the template is selected by substring match on the lowercased
prompt in fixed priority order — "research" first, then "itinerary", else the
generic tips template. -/
theorem c7_offline_client (prompt : String) :
    occursB "Offline Mode" (offlineRun prompt) = true
  ∧ strIsPrefix "Error:" (offlineRun prompt) = false
  ∧ (occursB "research" (lowerStr prompt) = true → offlineRun prompt = research_template)
  ∧ (occursB "research" (lowerStr prompt) = false →
      occursB "itinerary" (lowerStr prompt) = true → offlineRun prompt = itinerary_template)
  ∧ (occursB "research" (lowerStr prompt) = false →
      occursB "itinerary" (lowerStr prompt) = false → offlineRun prompt = tips_template) := by
  by_cases h1 : occursB "research" (lowerStr prompt) = true
  · have he : offlineRun prompt = research_template := by
      rw [offlineRun, if_pos h1]
    refine ⟨by rw [he]; decide, by rw [he]; decide, fun _ => he, ?_, ?_⟩
    · intro hn _
      rw [hn] at h1
      exact absurd h1 (by simp)
    · intro hn _
      rw [hn] at h1
      exact absurd h1 (by simp)
  · rw [Bool.not_eq_true] at h1
    by_cases h2 : occursB "itinerary" (lowerStr prompt) = true
    · have he : offlineRun prompt = itinerary_template := by
        rw [offlineRun, if_neg (by simp [h1]), if_pos h2]
      refine ⟨by rw [he]; decide, by rw [he]; decide, ?_, fun _ _ => he, ?_⟩
      · intro hc
        rw [hc] at h1
        exact absurd h1 (by simp)
      · intro _ hc
        rw [hc] at h2
        exact absurd h2 (by simp)
    · rw [Bool.not_eq_true] at h2
      have he : offlineRun prompt = tips_template := by
        rw [offlineRun, if_neg (by simp [h1]), if_neg (by simp [h2])]
      refine ⟨by rw [he]; decide, by rw [he]; decide, ?_, ?_, fun _ _ => he⟩
      · intro hc
        rw [hc] at h1
        exact absurd h1 (by simp)
      · intro _ hc
        rw [hc] at h2
        exact absurd h2 (by simp)

/-- C7 witness: a prompt containing both keywords selects the research
template, witnessing the priority order, and the output carries the marker. -/
theorem c7_witness :
    occursB "Offline Mode" (offlineRun "plan my itinerary using this research") = true
  ∧ offlineRun "plan my itinerary using this research" = research_template :=
  ⟨(c7_offline_client "plan my itinerary using this research").1,
   (c7_offline_client "plan my itinerary using this research").2.2.1 (by decide)⟩

/-- C8: the download filename for destinations ["Tokyo","Kyoto","Osaka","Nara"]
and a 12-day trip is exactly "Tokyo_Kyoto_Osaka_plus1more_12days_itinerary.txt"
(first three names, a "+1 more" suffix, the duration); and in general each
destination component of the filename — a parsed destination after the
source's two replacements — contains neither a space nor a comma (parsed
destinations are comma-free by construction, and spaces are replaced by
underscores). -/
theorem c8_download_filename :
    mkFilename ["Tokyo", "Kyoto", "Osaka", "Nara"] 12
      = "Tokyo_Kyoto_Osaka_plus1more_12days_itinerary.txt"
  ∧ ∀ (raw : String) (d : String), d ∈ parseDestinations raw →
      ' ' ∉ (pyReplace (pyReplace d ", " "_") " " "_").data
    ∧ ',' ∉ (pyReplace (pyReplace d ", " "_") " " "_").data := by
  refine ⟨by decide, ?_⟩
  intro raw d hd
  exact clean_dest_no_space_comma d (parse_no_comma raw d hd)

/-- C8 witness: a destination with an inner space is sanitized to underscores
after parsing. -/
theorem c8_witness :
    ("New York" ∈ parseDestinations "New York, Paris")
  ∧ ' ' ∉ (pyReplace (pyReplace "New York" ", " "_") " " "_").data
  ∧ pyReplace (pyReplace "New York" ", " "_") " " "_" = "New_York" :=
  ⟨by decide,
   (c8_download_filename.2 "New York, Paris" "New York" (by decide)).1,
   by decide⟩

/-- C1 counterexample: with a configured credential and a remote endpoint that
throws "Connection refused", the `generate_btn` handler does NOT leave the
previously stored itinerary untouched — it overwrites
`SessionState.itinerary` with the error text (the agent returns the error as
ordinary response content, so the handler's success path still runs). -/
theorem c1_counterexample :
    (generate_btn_handler
        { hf_api_key := "valid_key", research_results := some "prior research",
          itinerary := some "prior itinerary" }
        none (RemoteOutcome.failure "Connection refused") ["Paris"] 5
        "2026-01-01" "2026-01-06" 2 "Adventure" "Mid-range ($$)" ["Food & Dining"]
        ["Hotels"] "Walking" "").itinerary
      = some "Error: All HuggingFace models unavailable. Connection refused"
  ∧ (generate_btn_handler
        { hf_api_key := "valid_key", research_results := some "prior research",
          itinerary := some "prior itinerary" }
        none (RemoteOutcome.failure "Connection refused") ["Paris"] 5
        "2026-01-01" "2026-01-06" 2 "Adventure" "Mid-range ($$)" ["Food & Dining"]
        ["Hotels"] "Walking" "").itinerary
      ≠ some "prior itinerary" := by
  refine ⟨rfl, by decide⟩

/-- C1 (amended): when the remote call fails during Plan with a usable session
credential, the stored result is the error string preserving the underlying
message — stored INTO `SessionState.itinerary`, overwriting the prior value —
while the research field is left untouched by a failed Plan call, and a failed
Research call leaves the itinerary field untouched. -/
theorem c1_failed_call_effect (st : SessionState) (ek : Option String) (msg : String)
    (destinations : List String) (num_days : Nat) (start_date end_date : String)
    (travelers : Nat) (travel_style budget_range : String)
    (interests accommodation_type : List String) (mobility special_requirements : String)
    (h1 : st.hf_api_key ≠ "") (h2 : st.hf_api_key ≠ "hf_demo_fallback") :
    (generate_btn_handler st ek (RemoteOutcome.failure msg) destinations num_days
        start_date end_date travelers travel_style budget_range interests
        accommodation_type mobility special_requirements).itinerary
      = some (remoteFailMsg msg)
  ∧ (generate_btn_handler st ek (RemoteOutcome.failure msg) destinations num_days
        start_date end_date travelers travel_style budget_range interests
        accommodation_type mobility special_requirements).research_results
      = st.research_results
  ∧ occursB msg (remoteFailMsg msg) = true
  ∧ (research_btn_handler st ek (RemoteOutcome.failure msg) destinations num_days
        travel_style travelers budget_range interests accommodation_type mobility
        special_requirements).itinerary = st.itinerary := by
  have hg : get_hf_client (some st.hf_api_key) ek = some st.hf_api_key := by
    simp [get_hf_client, pyOrOpt, h1, h2]
  have hb : (st.hf_api_key == "") = false := by simp [h1]
  refine ⟨?_, ?_, ?_, ?_⟩
  · simp [generate_btn_handler, hb, hf_chat_completion, hg]
  · simp [generate_btn_handler]
  · unfold remoteFailMsg occursB
    rw [String.data_append]
    exact occursLC_append_right _ _ _ (occursLC_self _)
  · simp [research_btn_handler]

/-- C1 witness: concrete instantiation of the failed-Plan effect. -/
theorem c1_witness :
    (generate_btn_handler
        { hf_api_key := "k123", research_results := none, itinerary := some "old" }
        none (RemoteOutcome.failure "down") ["Paris", "Rome"] 10 "2026-02-01"
        "2026-02-11" 2 "Cultural" "Budget ($)" ["Museums"] ["Hostels"] "Mixed" "").itinerary
      = some (remoteFailMsg "down") :=
  (c1_failed_call_effect
    { hf_api_key := "k123", research_results := none, itinerary := some "old" }
    none "down" ["Paris", "Rome"] 10 "2026-02-01" "2026-02-11" 2 "Cultural"
    "Budget ($)" ["Museums"] ["Hostels"] "Mixed" "" (by decide) (by decide)).1

/-- C9: whenever the itinerary prompt is built with a non-empty prior research
text, the appended section label "RESEARCH INFORMATION TO INCORPORATE" makes
the lowercased prompt contain "research", and since that check has priority,
the offline client returns the research template, not the itinerary one. -/
theorem c9_research_header_wins (destinations : List String) (num_days : Nat)
    (start_date end_date : String) (travelers : Nat) (travel_style budget_range : String)
    (interests accommodation_type : List String) (mobility special_requirements : String)
    (r : String) (hr : r ≠ "") :
    offlineRun (create_multi_destination_itinerary_prompt destinations num_days
        start_date end_date travelers travel_style budget_range interests
        accommodation_type mobility special_requirements (some r)) = research_template := by
  have hopt : optTruthy (some r) = true := by simp [optTruthy, hr]
  have hocc : occursB "research" (lowerStr (create_multi_destination_itinerary_prompt
      destinations num_days start_date end_date travelers travel_style budget_range
      interests accommodation_type mobility special_requirements (some r))) = true := by
    simp only [create_multi_destination_itinerary_prompt, hopt, if_true]
    rw [lowerStr_append]
    apply occursB_append_left
    rw [lowerStr_append]
    apply occursB_append_right
    decide
  rw [offlineRun, if_pos hocc]

/-- C9 witness: concrete single-destination itinerary prompt carrying prior
research selects the research template. -/
theorem c9_witness :
    offlineRun (create_multi_destination_itinerary_prompt ["Tokyo"] 5 "2026-01-01"
      "2026-01-06" 2 "Adventure" "Mid-range ($$)" ["Food & Dining"] ["Hotels"]
      "Walking" "" (some "prior notes")) = research_template :=
  c9_research_header_wins ["Tokyo"] 5 "2026-01-01" "2026-01-06" 2 "Adventure"
    "Mid-range ($$)" ["Food & Dining"] ["Hotels"] "Walking" "" "prior notes" (by decide)

/-- A three-piece pattern occurring as the suffix of a left-associated
concatenation. -/
theorem occursB_suffix3 (x a b c : String) :
    occursB (a ++ b ++ c) (x ++ a ++ b ++ c) = true := by
  have h : (x ++ a ++ b ++ c).data = x.data ++ (a ++ b ++ c).data := by
    simp [String.data_append, List.append_assoc]
  unfold occursB
  rw [h]
  exact occursLC_append_right _ _ _ (occursLC_self _)

/-- C6: for every valid multi-destination request, the research prompt
surfaces the approximate days per destination as exactly
`num_days / destinations.length` — the trip duration integer-divided (floor)
by the number of parsed destinations — rendered inside the phrase
"out of {value} average per destination". -/
theorem c6_days_per_destination (destinations : List String) (num_days : Nat)
    (travel_style : String) (travelers : Nat) (budget_range : String)
    (interests accommodation_type : List String) (mobility special_requirements : String)
    (_hdays : 0 < num_days) (hmulti : 1 < destinations.length) :
    occursB ("out of " ++ Nat.repr (num_days / destinations.length)
        ++ " average per destination")
      (create_multi_destination_research_prompt destinations num_days travel_style
        travelers budget_range interests accommodation_type mobility
        special_requirements) = true := by
  have hne : ¬ destinations.length = 1 := by omega
  rw [create_multi_destination_research_prompt, if_neg hne]
  unfold multi_destination_research_prompt
  iterate 5 apply occursB_append_left
  exact occursB_suffix3 _ _ _ _

/-- C6 witness: a 10-day trip over two destinations surfaces 5 days each. -/
theorem c6_witness :
    occursB ("out of " ++ Nat.repr (10 / (["Paris", "Rome"] : List String).length)
        ++ " average per destination")
      (create_multi_destination_research_prompt ["Paris", "Rome"] 10 "Adventure" 2
        "Mid-range ($$)" ["Food & Dining", "Nature"] ["Hotels"] "Walking" "") = true :=
  c6_days_per_destination ["Paris", "Rome"] 10 "Adventure" 2 "Mid-range ($$)"
    ["Food & Dining", "Nature"] ["Hotels"] "Walking" "" (by decide) (by decide)

/-- C5 counterexample: a request with exactly ONE parsed destination whose
free-text special requirements mention the section headings produces prompts
that DO contain the inter-city logistics and route-ordering section texts, so
the claim's single-destination half is false as universally stated. -/
theorem c5_counterexample :
    (["Tokyo"] : List String).length = 1
  ∧ occursB "INTER-CITY LOGISTICS"
      (create_multi_destination_research_prompt ["Tokyo"] 5 "Adventure" 2
        "Mid-range ($$)" ["Food & Dining"] ["Hotels"] "Walking"
        "Please cover INTER-CITY LOGISTICS and Optimal route planning") = true
  ∧ occursB "Optimal route planning"
      (create_multi_destination_research_prompt ["Tokyo"] 5 "Adventure" 2
        "Mid-range ($$)" ["Food & Dining"] ["Hotels"] "Walking"
        "Please cover INTER-CITY LOGISTICS and Optimal route planning") = true
  ∧ occursB "OPTIMAL ROUTE PLANNING"
      (create_multi_destination_itinerary_prompt ["Tokyo"] 5 "2026-01-01" "2026-01-06"
        2 "Adventure" "Mid-range ($$)" ["Food & Dining"] ["Hotels"] "Walking"
        "Cover OPTIMAL ROUTE PLANNING and TRANSITION PLANNING" none) = true
  ∧ occursB "TRANSITION PLANNING"
      (create_multi_destination_itinerary_prompt ["Tokyo"] 5 "2026-01-01" "2026-01-06"
        2 "Adventure" "Mid-range ($$)" ["Food & Dining"] ["Hotels"] "Walking"
        "Cover OPTIMAL ROUTE PLANNING and TRANSITION PLANNING" none) = true :=
  ⟨rfl, by decide, by decide, by decide, by decide⟩

/-- C5 (amended): for every request with more than one parsed destination both
prompts contain the inter-city logistics and route-ordering section texts
(research prompt: "INTER-CITY LOGISTICS", "Optimal route planning"; itinerary
prompt: "TRANSITION PLANNING", "OPTIMAL ROUTE PLANNING"), whatever the other
fields; for a single-destination request the fixed templates contribute
neither — verified on a representative input whose free-text fields do not
themselves mention the section texts (by the counterexample, adversarial
field text can re-introduce them). -/
theorem c5_section_markers :
    (∀ (destinations : List String) (num_days : Nat) (travel_style : String)
        (travelers : Nat) (budget_range : String)
        (interests accommodation_type : List String)
        (mobility special_requirements start_date end_date : String)
        (research_results : Option String),
      1 < destinations.length →
        occursB "INTER-CITY LOGISTICS"
          (create_multi_destination_research_prompt destinations num_days travel_style
            travelers budget_range interests accommodation_type mobility
            special_requirements) = true
      ∧ occursB "Optimal route planning"
          (create_multi_destination_research_prompt destinations num_days travel_style
            travelers budget_range interests accommodation_type mobility
            special_requirements) = true
      ∧ occursB "OPTIMAL ROUTE PLANNING"
          (create_multi_destination_itinerary_prompt destinations num_days start_date
            end_date travelers travel_style budget_range interests accommodation_type
            mobility special_requirements research_results) = true
      ∧ occursB "TRANSITION PLANNING"
          (create_multi_destination_itinerary_prompt destinations num_days start_date
            end_date travelers travel_style budget_range interests accommodation_type
            mobility special_requirements research_results) = true)
  ∧ (occursB "INTER-CITY LOGISTICS"
        (create_multi_destination_research_prompt ["Tokyo"] 5 "Adventure" 2
          "Mid-range ($$)" ["Food & Dining", "Nature"] ["Hotels"] "Walking" "") = false
    ∧ occursB "Optimal route planning"
        (create_multi_destination_research_prompt ["Tokyo"] 5 "Adventure" 2
          "Mid-range ($$)" ["Food & Dining", "Nature"] ["Hotels"] "Walking" "") = false
    ∧ occursB "OPTIMAL ROUTE PLANNING"
        (create_multi_destination_research_prompt ["Tokyo"] 5 "Adventure" 2
          "Mid-range ($$)" ["Food & Dining", "Nature"] ["Hotels"] "Walking" "") = false
    ∧ occursB "TRANSITION PLANNING"
        (create_multi_destination_research_prompt ["Tokyo"] 5 "Adventure" 2
          "Mid-range ($$)" ["Food & Dining", "Nature"] ["Hotels"] "Walking" "") = false
    ∧ occursB "INTER-CITY LOGISTICS"
        (create_multi_destination_itinerary_prompt ["Tokyo"] 5 "2026-01-01" "2026-01-06"
          2 "Adventure" "Mid-range ($$)" ["Food & Dining", "Nature"] ["Hotels"]
          "Walking" "" none) = false
    ∧ occursB "Optimal route planning"
        (create_multi_destination_itinerary_prompt ["Tokyo"] 5 "2026-01-01" "2026-01-06"
          2 "Adventure" "Mid-range ($$)" ["Food & Dining", "Nature"] ["Hotels"]
          "Walking" "" none) = false
    ∧ occursB "OPTIMAL ROUTE PLANNING"
        (create_multi_destination_itinerary_prompt ["Tokyo"] 5 "2026-01-01" "2026-01-06"
          2 "Adventure" "Mid-range ($$)" ["Food & Dining", "Nature"] ["Hotels"]
          "Walking" "" none) = false
    ∧ occursB "TRANSITION PLANNING"
        (create_multi_destination_itinerary_prompt ["Tokyo"] 5 "2026-01-01" "2026-01-06"
          2 "Adventure" "Mid-range ($$)" ["Food & Dining", "Nature"] ["Hotels"]
          "Walking" "" none) = false) := by
  refine ⟨?_, by decide, by decide, by decide, by decide, by decide, by decide,
    by decide, by decide⟩
  intro destinations num_days travel_style travelers budget_range interests
    accommodation_type mobility special_requirements start_date end_date
    research_results hlen
  have hne : ¬ destinations.length = 1 := by omega
  have hres1 : occursB "INTER-CITY LOGISTICS"
      (multi_destination_research_prompt destinations num_days travel_style travelers
        budget_range interests accommodation_type mobility special_requirements)
      = true := by
    unfold multi_destination_research_prompt
    apply occursB_append_right
    decide
  have hres2 : occursB "Optimal route planning"
      (multi_destination_research_prompt destinations num_days travel_style travelers
        budget_range interests accommodation_type mobility special_requirements)
      = true := by
    unfold multi_destination_research_prompt
    apply occursB_append_right
    decide
  have hit1 : occursB "OPTIMAL ROUTE PLANNING"
      (multi_destination_itinerary_context destinations num_days start_date end_date
        travelers travel_style budget_range interests accommodation_type mobility
        special_requirements) = true := by
    unfold multi_destination_itinerary_context
    iterate 6 apply occursB_append_left
    apply occursB_append_right
    decide
  have hit2 : occursB "TRANSITION PLANNING"
      (multi_destination_itinerary_context destinations num_days start_date end_date
        travelers travel_style budget_range interests accommodation_type mobility
        special_requirements) = true := by
    unfold multi_destination_itinerary_context
    iterate 2 apply occursB_append_left
    apply occursB_append_right
    decide
  refine ⟨?_, ?_, ?_, ?_⟩
  · rw [create_multi_destination_research_prompt, if_neg hne]
    exact hres1
  · rw [create_multi_destination_research_prompt, if_neg hne]
    exact hres2
  · simp only [create_multi_destination_itinerary_prompt]
    cases hopt : optTruthy research_results
    · rw [if_neg (by simp [hopt]), if_neg hne]
      exact hit1
    · rw [if_pos (by simp [hopt])]
      apply occursB_append_left
      apply occursB_append_left
      rw [if_neg hne]
      exact hit1
  · simp only [create_multi_destination_itinerary_prompt]
    cases hopt : optTruthy research_results
    · rw [if_neg (by simp [hopt]), if_neg hne]
      exact hit2
    · rw [if_pos (by simp [hopt])]
      apply occursB_append_left
      apply occursB_append_left
      rw [if_neg hne]
      exact hit2

/-- C5 witness: a two-destination request's research prompt contains the
inter-city logistics section. -/
theorem c5_witness :
    1 < (["Paris", "Rome"] : List String).length
  ∧ occursB "INTER-CITY LOGISTICS"
      (create_multi_destination_research_prompt ["Paris", "Rome"] 10 "Adventure" 2
        "Mid-range ($$)" ["Food & Dining", "Nature"] ["Hotels"] "Walking" "") = true :=
  ⟨by decide,
   (c5_section_markers.1 ["Paris", "Rome"] 10 "Adventure" 2 "Mid-range ($$)"
      ["Food & Dining", "Nature"] ["Hotels"] "Walking" "" "2026-05-01" "2026-05-11"
      none (by decide)).1⟩
